import Mathlib

/-!
Shallow embedding of the lti-tool repository (LTI 1.3 tool toolkit):
the storage backends (in-memory and MySQL), the core login/launch
protocol (handleLogin / verifyLaunch in packages/core/src/ltiTool.ts),
and the session builder (createSession in the session service).

Machine integers and JavaScript Date values are modelled as Nat
(milliseconds since epoch, or seconds where the source uses seconds);
fallible code returns Option or Except.
-/

namespace LtiTool

/-! ### Association-list maps

JavaScript Map objects and primary-keyed database tables are modelled as
association lists with string keys.  mlookup finds the first binding,
minsert replaces any existing binding, merase removes all bindings. -/

def mlookup (m : List (String × α)) (k : String) : Option α :=
  (m.find? (fun p => p.1 == k)).map (·.2)

def merase (m : List (String × α)) (k : String) : List (String × α) :=
  m.filter (fun p => p.1 != k)

def minsert (m : List (String × α)) (k : String) (v : α) : List (String × α) :=
  (k, v) :: merase m k

theorem mlookup_cons (a : String) (b : α) (m : List (String × α)) (k : String) :
    mlookup ((a, b) :: m) k = if a = k then some b else mlookup m k := by
  by_cases h : a = k
  · simp [mlookup, List.find?_cons_of_pos, h]
  · rw [if_neg h]
    unfold mlookup
    rw [List.find?_cons_of_neg]
    simpa using h

theorem merase_cons (a : String) (b : α) (m : List (String × α)) (k : String) :
    merase ((a, b) :: m) k =
      if a = k then merase m k else (a, b) :: merase m k := by
  by_cases h : a = k <;> simp [merase, List.filter_cons, h]

theorem mlookup_merase (m : List (String × α)) (k : String) :
    mlookup (merase m k) k = none := by
  induction m with
  | nil => rfl
  | cons p m ih =>
    obtain ⟨a, b⟩ := p
    rw [merase_cons]
    by_cases h : a = k
    · simpa [h] using ih
    · rw [if_neg h, mlookup_cons, if_neg h]
      exact ih

theorem mlookup_minsert (m : List (String × α)) (k : String) (v : α) :
    mlookup (minsert m k v) k = some v := by
  simp [minsert, mlookup_cons]

theorem merase_of_mlookup_none (m : List (String × α)) (k : String)
    (h : mlookup m k = none) : merase m k = m := by
  induction m with
  | nil => rfl
  | cons p m ih =>
    obtain ⟨a, b⟩ := p
    rw [mlookup_cons] at h
    by_cases hp : a = k
    · simp [hp] at h
    · rw [merase_cons, if_neg hp, ih (by simpa [hp] using h)]

theorem find?_key_none_of_mlookup_none (m : List (String × α)) (k : String)
    (p : String × α → Bool) (hp : ∀ x, p x = true → x.1 = k)
    (h : mlookup m k = none) : m.find? p = none := by
  rw [List.find?_eq_none]
  intro x hx hpx
  have hk : x.1 = k := hp x hpx
  induction m with
  | nil => simp at hx
  | cons y m ih =>
    obtain ⟨a, b⟩ := y
    rw [mlookup_cons] at h
    by_cases hy : a = k
    · simp [hy] at h
    · rcases List.mem_cons.mp hx with rfl | hmem
      · exact hy hk
      · exact ih (by simpa [hy] using h) hmem

/-! ### Data model (packages/core/src/interfaces) -/

structure LTIDeployment where
  id : String
  deploymentId : String
  name : Option String := none
  description : Option String := none
deriving DecidableEq, Repr

structure LTIClient where
  id : String
  name : String
  iss : String
  clientId : String
  authUrl : String
  tokenUrl : String
  jwksUrl : String
  deployments : List LTIDeployment
deriving DecidableEq, Repr

structure LTILaunchConfig where
  iss : String
  clientId : String
  deploymentId : String
  authUrl : String
  tokenUrl : String
  jwksUrl : String
deriving DecidableEq, Repr

/-! ### LTI 1.3 JWT payload (schema-validated shape)

The zod LTI13JwtPayloadSchema admits exactly the values of this type;
schema validation in the protocol code is therefore modelled as the
identity on already-typed payloads.  The aud claim is
z.union([z.string(), z.array(z.string())]) with no transform. -/

inductive AudValue where
  | str (s : String)
  | arr (l : List String)
deriving DecidableEq, Repr

inductive LTIMessageType where
  | resourceLinkRequest
  | deepLinkingRequest
deriving DecidableEq, Repr

structure ContextClaim where
  id : String
  label : Option String := none
  title : Option String := none
deriving DecidableEq, Repr

structure ResourceLinkClaim where
  id : String
  title : Option String := none
deriving DecidableEq, Repr

structure ToolPlatformClaim where
  guid : String
  name : Option String := none
  description : Option String := none
  url : Option String := none
  product_family_code : Option String := none
  contact_email : Option String := none
  version : Option String := none
deriving DecidableEq, Repr

structure AgsEndpointClaim where
  scope : List String
  lineitem : Option String := none
  lineitems : Option String := none
deriving DecidableEq, Repr

structure NrpsClaim where
  context_memberships_url : String
  service_versions : Option (List String) := none
deriving DecidableEq, Repr

structure DeepLinkingClaim where
  deep_link_return_url : String
  accept_types : List String
  accept_presentation_document_targets : List String
  accept_media_types : Option String := none
  accept_multiple : Option Bool := none
  auto_create : Option Bool := none
  data : Option String := none
deriving DecidableEq, Repr

structure LTI13JwtPayload where
  iss : String
  sub : String
  aud : AudValue
  exp : Nat
  iat : Nat
  nbf : Option Nat := none
  nonce : String
  given_name : String
  family_name : String
  name : String
  email : String
  message_type : LTIMessageType
  deployment_id : String
  target_link_uri : String
  roles : Option (List String) := none
  resource_link : Option ResourceLinkClaim := none
  context : Option ContextClaim := none
  tool_platform : Option ToolPlatformClaim := none
  custom : Option (List (String × String)) := none
  ags_endpoint : Option AgsEndpointClaim := none
  nrps : Option NrpsClaim := none
  deep_linking_settings : Option DeepLinkingClaim := none
deriving DecidableEq, Repr

/-! ### Session entity (interfaces/ltiSession.ts, shaped by createSession) -/

structure SessionUser where
  id : String
  name : Option String
  email : Option String
  familyName : Option String
  givenName : Option String
  roles : List String
deriving DecidableEq, Repr

structure SessionContext where
  id : String
  label : String
  title : String
deriving DecidableEq, Repr

structure SessionPlatform where
  issuer : String
  /-- The source computes Array.isArray(aud) ? aud[0] : aud; on an empty
  array the JavaScript index yields undefined, hence Option here. -/
  clientId : Option String
  deploymentId : String
  name : String
deriving DecidableEq, Repr

structure SessionLaunch where
  target : String
deriving DecidableEq, Repr

structure SessionResourceLink where
  id : String
  title : Option String
deriving DecidableEq, Repr

structure SessionAgs where
  lineitem : Option String
  lineitems : Option String
  scopes : List String
deriving DecidableEq, Repr

structure SessionNrps where
  membershipUrl : String
  versions : List String
deriving DecidableEq, Repr

structure SessionDeepLinking where
  returnUrl : String
  acceptTypes : List String
  acceptPresentationDocumentTargets : List String
  acceptMediaTypes : Option String
  autoCreate : Option Bool
  data : Option String
deriving DecidableEq, Repr

structure SessionServices where
  ags : Option SessionAgs
  nrps : Option SessionNrps
  deepLinking : Option SessionDeepLinking
deriving DecidableEq, Repr

structure LTISession where
  jwtPayload : LTI13JwtPayload
  id : String
  user : SessionUser
  context : SessionContext
  platform : SessionPlatform
  launch : SessionLaunch
  resourceLink : Option SessionResourceLink
  customParameters : List (String × String)
  services : Option SessionServices
  isAdmin : Bool
  isInstructor : Bool
  isStudent : Bool
  isAssignmentAndGradesAvailable : Bool
  isDeepLinkingAvailable : Bool
  isNameAndRolesAvailable : Bool
deriving DecidableEq, Repr

/-! ### Memory storage (packages/memory/src/memoryStorage.ts)

State-passing translation of the class fields: clients, clientLookup
(issuer#clientId to internal id), sessions, nonces (nonce to expiry in
milliseconds).  Time is passed explicitly where the source calls
new Date(). -/

structure MemoryStorage where
  clients : List (String × LTIClient)
  clientLookup : List (String × String)
  sessions : List (String × LTISession)
  nonces : List (String × Nat)
deriving DecidableEq, Repr

def MemoryStorage.storeNonce (s : MemoryStorage) (nonce : String) (expiresAt : Nat) :
    MemoryStorage :=
  { s with nonces := minsert s.nonces nonce expiresAt }

/-- Translation of MemoryStorage.validateNonce: returns false when the
nonce is absent; deletes and returns false when expired
(expiresAt < new Date()); otherwise deletes (one-time use) and returns
true. -/
def MemoryStorage.validateNonce (s : MemoryStorage) (nonce : String) (nowMs : Nat) :
    Bool × MemoryStorage :=
  match mlookup s.nonces nonce with
  | none => (false, s)
  | some expiresAt =>
    if expiresAt < nowMs then
      (false, { s with nonces := merase s.nonces nonce })
    else
      (true, { s with nonces := merase s.nonces nonce })

/-- Translation of MemoryStorage.getSession: a plain map lookup; no
expiry is stored for sessions and none is checked, and the method takes
no clock at all. -/
def MemoryStorage.getSession (s : MemoryStorage) (sessionId : String) :
    Option LTISession :=
  mlookup s.sessions sessionId

def MemoryStorage.addSession (s : MemoryStorage) (session : LTISession) :
    MemoryStorage :=
  { s with sessions := minsert s.sessions session.id session }

/-- Translation of MemoryStorage.getLaunchConfig: clientLookup indexed by
issuer#clientId, then the client map, then a linear search of the client
deployments for an exact deploymentId match.  There is no fallback to
the "default" deployment in this backend. -/
def MemoryStorage.getLaunchConfig (s : MemoryStorage)
    (iss clientId deploymentId : String) : Option LTILaunchConfig :=
  match mlookup s.clientLookup (iss ++ "#" ++ clientId) with
  | none => none
  | some clientInternalId =>
    match mlookup s.clients clientInternalId with
    | none => none
    | some client =>
      match client.deployments.find? (fun d => d.deploymentId == deploymentId) with
      | none => none
      | some deployment =>
        some { iss := client.iss, clientId := client.clientId,
               deploymentId := deployment.deploymentId,
               authUrl := client.authUrl, jwksUrl := client.jwksUrl,
               tokenUrl := client.tokenUrl }

/-! ### MySQL storage (packages/mysql/src/mysqlStorage.ts)

State-passing translation.  Database tables become association lists
keyed by their primary key; the two module-level LRU caches
(LAUNCH_CONFIG_CACHE, SESSION_CACHE, from the cache configuration
module whose text appears alongside the DynamoDB adapter) become cache
fields holding the cached value together with its insertion time.  The
lru-cache max-size eviction is not modelled (it only removes entries,
and the theorems below quantify over arbitrary cache contents or assume
an empty cache); the ttl aspect is modelled exactly: a get misses once
the entry age reaches the ttl. -/

def SESSION_CACHE_TTL_MS : Nat := 1000 * 60 * 5

def LAUNCH_CONFIG_CACHE_TTL_MS : Nat := 1000 * 60 * 15

/-- Session row ttl in seconds (SESSION_TTL in the cache configuration
module): one day. -/
def SESSION_TTL : Nat := 60 * 60 * 24

/-- A cache entry: the cached value (none models the private sentinel
standing for a confirmed-absent result) and the time it was stored. -/
structure CacheEntry (α : Type) where
  value : Option α
  storedAt : Nat
deriving DecidableEq, Repr

/-- lru-cache get with ttl: returns the stored value while the entry is
fresh, a miss otherwise. -/
def cacheGet (ttl : Nat) (cache : List (String × CacheEntry α)) (k : String)
    (nowMs : Nat) : Option (Option α) :=
  match mlookup cache k with
  | none => none
  | some e => if nowMs < e.storedAt + ttl then some e.value else none

def cacheSet (cache : List (String × CacheEntry α)) (k : String) (v : Option α)
    (nowMs : Nat) : List (String × CacheEntry α) :=
  minsert cache k { value := v, storedAt := nowMs }

/-- Row of the clients table (drizzle clientsTable). -/
structure MySqlClientRow where
  id : String
  name : String
  iss : String
  clientId : String
  authUrl : String
  tokenUrl : String
  jwksUrl : String
deriving DecidableEq, Repr

/-- Row of the deployments table (drizzle deploymentsTable); clientId is
the internal id of the owning client row. -/
structure MySqlDeploymentRow where
  id : String
  clientId : String
  deploymentId : String
  name : Option String := none
  description : Option String := none
deriving DecidableEq, Repr

structure MySqlState where
  clients : List MySqlClientRow
  deployments : List MySqlDeploymentRow
  /-- nonces table: primary key nonce, expiresAt in milliseconds. -/
  nonceRows : List (String × Nat)
  /-- sessions table: primary key id, payload data and expiresAt in
  milliseconds. -/
  sessionRows : List (String × (LTISession × Nat))
  sessionCache : List (String × CacheEntry LTISession)
  launchConfigCache : List (String × CacheEntry LTILaunchConfig)
  nonceExpirationSeconds : Nat
deriving DecidableEq, Repr

/-- Translation of MySqlStorage.storeNonce: a no-op; the real work
happens in validateNonce. -/
def MySqlState.storeNonce (m : MySqlState) (_nonce : String) (_expiresAt : Nat) :
    MySqlState :=
  m

/-- Translation of MySqlStorage.validateNonce: select the nonce row with
expiresAt > NOW(); if found, the nonce was already used (replay), return
false.  Otherwise insert the nonce with expiry now plus the configured
ttl; a duplicate-key failure of the insert (the primary key already in
the table, e.g. an expired row not yet cleaned up, or a concurrent
insert) returns false. -/
def MySqlState.validateNonce (m : MySqlState) (nonce : String) (nowMs : Nat) :
    Bool × MySqlState :=
  match m.nonceRows.find? (fun r => r.1 == nonce && nowMs < r.2) with
  | some _ => (false, m)
  | none =>
    let expiresAt := nowMs + m.nonceExpirationSeconds * 1000
    if (mlookup m.nonceRows nonce).isSome then
      (false, m)
    else
      (true, { m with nonceRows := (nonce, expiresAt) :: m.nonceRows })

/-- Translation of MySqlStorage.getSession: serve a fresh cache entry
(the sentinel meaning confirmed absent, or a hit); on a cache miss query
the sessions table for the row with this id and expiresAt > NOW(),
caching the result either way. -/
def MySqlState.getSession (m : MySqlState) (sessionId : String) (nowMs : Nat) :
    Option LTISession × MySqlState :=
  match cacheGet SESSION_CACHE_TTL_MS m.sessionCache sessionId nowMs with
  | some none => (none, m)
  | some (some cached) => (some cached, m)
  | none =>
    match m.sessionRows.find? (fun r => r.1 == sessionId && nowMs < r.2.2) with
    | none =>
      (none, { m with sessionCache := cacheSet m.sessionCache sessionId none nowMs })
    | some r =>
      (some r.2.1,
       { m with sessionCache := cacheSet m.sessionCache sessionId (some r.2.1) nowMs })

/-- Translation of MySqlStorage.addSession: insert the row with
expiresAt = now + SESSION_TTL seconds and cache the session. -/
def MySqlState.addSession (m : MySqlState) (session : LTISession) (nowMs : Nat) :
    MySqlState :=
  let expiresAt := nowMs + SESSION_TTL * 1000
  { m with
    sessionRows := (session.id, (session, expiresAt)) :: m.sessionRows,
    sessionCache := cacheSet m.sessionCache session.id (some session) nowMs }

/-- The inner join of clients and deployments on
deployments.clientId = clients.id, filtered by (iss, clientId,
deploymentId), limit 1. -/
def MySqlState.rowsJoin (m : MySqlState) (iss clientId deploymentId : String) :
    Option (MySqlClientRow × MySqlDeploymentRow) :=
  m.clients.findSome? (fun c =>
    if c.iss == iss && c.clientId == clientId then
      (m.deployments.find? (fun d =>
        d.clientId == c.id && d.deploymentId == deploymentId)).map (fun d => (c, d))
    else none)

def launchConfigOfJoin (r : MySqlClientRow × MySqlDeploymentRow) : LTILaunchConfig :=
  { iss := r.1.iss, clientId := r.1.clientId, deploymentId := r.2.deploymentId,
    authUrl := r.1.authUrl, tokenUrl := r.1.tokenUrl, jwksUrl := r.1.jwksUrl }

/-- Outcome of one pass of MySqlStorage.getLaunchConfig before the
recursive fallback call. -/
inductive LCOutcome where
  | result (cfg : Option LTILaunchConfig) (m : MySqlState)
  | fallback (m : MySqlState)

/-- One pass of MySqlStorage.getLaunchConfig: cache check on the key
iss#clientId#deploymentId, then the join query; on no result the pass
requests the fallback when deploymentId is not "default", and caches
the negative result otherwise. -/
def MySqlState.getLaunchConfigStep (m : MySqlState)
    (iss clientId deploymentId : String) (nowMs : Nat) : LCOutcome :=
  let cacheKey := iss ++ "#" ++ clientId ++ "#" ++ deploymentId
  match cacheGet LAUNCH_CONFIG_CACHE_TTL_MS m.launchConfigCache cacheKey nowMs with
  | some none => .result none m
  | some (some cfg) => .result (some cfg) m
  | none =>
    match m.rowsJoin iss clientId deploymentId with
    | none =>
      if deploymentId != "default" then
        .fallback m
      else
        .result none
          { m with launchConfigCache := cacheSet m.launchConfigCache cacheKey none nowMs }
    | some r =>
      let cfg := launchConfigOfJoin r
      .result (some cfg)
        { m with
          launchConfigCache := cacheSet m.launchConfigCache cacheKey (some cfg) nowMs }

/-- Translation of MySqlStorage.getLaunchConfig.  The recursive call in
the source fixes deploymentId to "default", so the recursion is at most
one level deep and is unrolled here; the final fallback arm is
unreachable because a pass with deploymentId = "default" never requests
the fallback. -/
def MySqlState.getLaunchConfig (m : MySqlState)
    (iss clientId deploymentId : String) (nowMs : Nat) :
    Option LTILaunchConfig × MySqlState :=
  match m.getLaunchConfigStep iss clientId deploymentId nowMs with
  | .result cfg m2 => (cfg, m2)
  | .fallback m2 =>
    match m2.getLaunchConfigStep iss clientId "default" nowMs with
    | .result cfg m3 => (cfg, m3)
    | .fallback m3 => (none, m3)

/-! ### URL parsing

Model of the WHATWG new URL(input) constructor used by the source
(session service and login URL building); parseURL returns none exactly
where the constructor would throw.  The model covers the shapes the
code meets: a scheme (letter followed by letters, digits, plus, minus,
dot, then a colon), then either an authority form scheme://host/path
with a non-empty host, or an opaque-path form such as mailto:address.
Host character validation and percent-encoding normalization are not
modelled. -/

def isSchemeTailChar (c : Char) : Bool :=
  c.isAlpha || c.isDigit || c == '+' || c == '-' || c == '.'

/-- Split off a URL scheme: the longest prefix of scheme characters
followed by a colon.  Returns the scheme and the remainder after the
colon. -/
def takeSchemeAux : List Char → List Char → Option (List Char × List Char)
  | acc, ':' :: rest => some (acc.reverse, rest)
  | acc, c :: rest => if isSchemeTailChar c then takeSchemeAux (c :: acc) rest else none
  | _, [] => none

def takeScheme (s : List Char) : Option (List Char × List Char) :=
  match s with
  | [] => none
  | c :: rest => if c.isAlpha then takeSchemeAux [c] rest else none

structure URLRec where
  scheme : String
  host : String
  pathname : String
  /-- The raw query string including the leading question mark when
  present (the .search of the URL object). -/
  search : String
deriving DecidableEq, Repr

def parseURL (s : String) : Option URLRec :=
  match takeScheme s.toList with
  | none => none
  | some (sch, rest) =>
    match rest with
    | '/' :: '/' :: rest2 =>
      let hostChars := rest2.takeWhile (fun c => c != '/' && c != '?' && c != '#')
      let afterHost := rest2.drop hostChars.length
      if hostChars.isEmpty then none
      else
        let pathChars := afterHost.takeWhile (fun c => c != '?' && c != '#')
        let afterPath := afterHost.drop pathChars.length
        let searchChars := afterPath.takeWhile (fun c => c != '#')
        some { scheme := ⟨sch⟩, host := ⟨hostChars⟩,
               pathname := if pathChars.isEmpty then "/" else ⟨pathChars⟩,
               search := ⟨searchChars⟩ }
    | _ =>
      let pathChars := rest.takeWhile (fun c => c != '?' && c != '#')
      let afterPath := rest.drop pathChars.length
      let searchChars := afterPath.takeWhile (fun c => c != '#')
      some { scheme := ⟨sch⟩, host := "", pathname := ⟨pathChars⟩,
             search := ⟨searchChars⟩ }

/-- The string interpolation of url.origin followed by url.pathname used
by the session service to strip query parameters from the AGS lineitem
URL (for the http and https URLs it receives there, origin is
scheme://host). -/
def urlOriginPathname (u : URLRec) : String :=
  u.scheme ++ "://" ++ u.host ++ u.pathname

/-! ### Session builder (createSession in the core session service) -/

/-- JavaScript string defaulting with the logical-or operator: an absent
or empty string falls through to the default. -/
def jsStrOr (a : Option String) (b : String) : String :=
  match a with
  | some s => if s = "" then b else s
  | none => b

def ROLE_MAPPINGS : List (String × String) :=
  [("Instructor", "instructor"), ("Learner", "student"),
   ("Administrator", "admin"), ("ContentDeveloper", "content-developer"),
   ("Member", "member")]

/-- JavaScript String.prototype.includes: substring containment. -/
def strIncludes (s pat : String) : Bool :=
  (s.splitOn pat).length != 1 || pat == ""

def hasRole (roles : List String) (pat : String) : Bool :=
  roles.any (fun role => strIncludes role pat)

/-- simplifyRoles: for each raw role, every mapping whose key occurs as a
substring contributes its simplified value; the resulting set keeps
insertion order and drops duplicates, like a JavaScript Set. -/
def simplifyRoles (roles : List String) : List String :=
  roles.foldl
    (fun acc role =>
      ROLE_MAPPINGS.foldl
        (fun acc2 kv =>
          if strIncludes role kv.1 && !(acc2.contains kv.2) then acc2 ++ [kv.2]
          else acc2)
        acc)
    []

def audFirst : AudValue → Option String
  | .str s => some s
  | .arr l => l.head?

/-- Translation of createSession (session service).  The fresh random id
from crypto.randomUUID is passed in.  The only fallible step is
new URL(agsEndpoint.lineitem), so the function returns none exactly
when that constructor throws. -/
def createSession (p : LTI13JwtPayload) (freshId : String) : Option LTISession :=
  let roles := p.roles.getD []
  let isInstructor := hasRole roles "Instructor"
  let isStudent := hasRole roles "Learner"
  let isAdmin := hasRole roles "Administrator"
  let agsResult : Option (Option SessionAgs) :=
    match p.ags_endpoint with
    | none => some none
    | some ep =>
      match ep.lineitem with
      | none =>
        some (some { lineitem := none, lineitems := ep.lineitems, scopes := ep.scope })
      | some li =>
        match parseURL li with
        | none => none
        | some u =>
          some (some { lineitem := some (urlOriginPathname u),
                       lineitems := ep.lineitems, scopes := ep.scope })
  match agsResult with
  | none => none
  | some agsService =>
    let nrpsService : Option SessionNrps :=
      p.nrps.map (fun n =>
        { membershipUrl := n.context_memberships_url,
          versions := n.service_versions.getD [] })
    let dlService : Option SessionDeepLinking :=
      p.deep_linking_settings.map (fun dl =>
        { returnUrl := dl.deep_link_return_url,
          acceptTypes := dl.accept_types,
          acceptPresentationDocumentTargets := dl.accept_presentation_document_targets,
          acceptMediaTypes := dl.accept_media_types,
          autoCreate := dl.auto_create,
          data := dl.data })
    let ctx := p.context
    some
      { jwtPayload := p
        id := freshId
        user :=
          { id := p.sub, name := some p.name, email := some p.email,
            familyName := some p.family_name, givenName := some p.given_name,
            roles := simplifyRoles roles }
        context :=
          { id := jsStrOr (ctx.map (·.id)) ""
            label := jsStrOr (ctx.bind (·.label)) (jsStrOr (ctx.map (·.id)) "")
            title := jsStrOr (ctx.bind (·.title)) "" }
        platform :=
          { issuer := p.iss
            clientId := audFirst p.aud
            deploymentId := p.deployment_id
            name := jsStrOr (p.tool_platform.bind (·.name)) p.iss }
        launch := { target := p.target_link_uri }
        resourceLink :=
          p.resource_link.map (fun rl => { id := rl.id, title := rl.title })
        customParameters := p.custom.getD []
        services :=
          if agsService.isSome || nrpsService.isSome || dlService.isSome then
            some { ags := agsService, nrps := nrpsService, deepLinking := dlService }
          else none
        isAdmin := isAdmin
        isInstructor := isInstructor
        isStudent := isStudent
        isAssignmentAndGradesAvailable := p.ags_endpoint.isSome
        isDeepLinkingAvailable := p.deep_linking_settings.isSome
        isNameAndRolesAvailable := p.nrps.isSome }

/-! ### JWT model

Cryptographic primitives are a trusted external library (jose).  They
are modelled ideally: a signed token is a record of its payload and the
key material that produced it, and verification succeeds exactly under
that key - capturing unforgeability of HMAC-SHA256 and RS256 without
modelling the byte-level algorithms.  jose jwtVerify also validates the
exp claim (seconds, default clockTolerance 0): a token whose exp is not
strictly greater than the current epoch second is rejected. -/

/-- Claims of the state JWT built by handleLogin. -/
structure StateClaims where
  nonce : String
  iss : String
  client_id : String
  target_link_uri : String
  /-- Expiry in epoch seconds. -/
  exp : Nat
deriving DecidableEq, Repr

/-- An HS256 token: payload plus the shared secret that signed it. -/
structure HSToken where
  payload : StateClaims
  signedWith : String
deriving DecidableEq, Repr

/-- Model of new SignJWT(payload).setProtectedHeader(HS256).sign(secret). -/
def signJwtHS (secret : String) (claims : StateClaims) : HSToken :=
  { payload := claims, signedWith := secret }

/-- Model of jose jwtVerify(token, secret) for the HS256 state token:
succeeds exactly when the token was signed with this secret and its exp
is still in the future. -/
def jwtVerifyHS (tok : HSToken) (secret : String) (nowSec : Nat) :
    Option StateClaims :=
  if tok.signedWith = secret ∧ nowSec < tok.payload.exp then some tok.payload
  else none

/-- An RS256 launch token: payload plus an identifier of the private key
that signed it. -/
structure RSToken where
  payload : LTI13JwtPayload
  signedWith : String
deriving DecidableEq, Repr

/-- Model of jose jwtVerify(idToken, jwks) where jwks is the remote key
set fetched from the jwksUrl of the launch config: succeeds exactly when
the token was signed with the key published at that url and its exp is
still in the future.  The jwksCache of the tool only memoizes
createRemoteJWKSet and is transparent here. -/
def jwtVerifyRS (tok : RSToken) (platformKey : String) (nowSec : Nat) :
    Option LTI13JwtPayload :=
  if tok.signedWith = platformKey ∧ nowSec < tok.payload.exp then some tok.payload
  else none

/-! ### Core protocol (packages/core/src/ltiTool.ts) -/

/-- Tool configuration; the optional security overrides of the source
(config.security?.nonceExpirationSeconds ?? 600 and the state analogue)
are modelled as already-resolved fields. -/
structure LTIToolConfig where
  stateSecret : String
  nonceExpirationSeconds : Nat
  stateExpirationSeconds : Nat
deriving DecidableEq, Repr

/-- Parameters of handleLogin after HandleLoginParamsSchema validation. -/
structure LoginParams where
  client_id : String
  iss : String
  launchUrl : String
  login_hint : String
  target_link_uri : String
  lti_deployment_id : String
  lti_message_hint : Option String := none
deriving DecidableEq, Repr

inductive LoginError where
  /-- getValidLaunchConfig threw: no valid launch config found. -/
  | configNotFound
  /-- new URL(launchConfig.authUrl) threw. -/
  | invalidAuthUrl
deriving DecidableEq, Repr

/-- URLSearchParams.set: replace the value of an existing key, append a
fresh key at the end. -/
def setParam (ps : List (String × String)) (k v : String) :
    List (String × String) :=
  if ps.any (fun p => p.1 == k) then
    ps.map (fun p => if p.1 == k then (k, v) else p)
  else ps ++ [(k, v)]

/-- The authorization redirect the login builds: the parsed authUrl of
the launch config (whose own query string stays in base.search) plus
the query parameters set on it, in order. -/
structure LoginRedirect where
  base : URLRec
  params : List (String × String)
deriving DecidableEq, Repr

structure LoginResult where
  redirect : LoginRedirect
  state : HSToken
  nonce : String
deriving DecidableEq, Repr

/-- The state JWT signed inside handleLogin (lines 140-150 of
ltiTool.ts): HS256 under the tool stateSecret, carrying nonce, iss,
client_id, target_link_uri and exp = floor(now / 1000) +
stateExpirationSeconds. -/
def loginState (cfg : LTIToolConfig) (p : LoginParams) (nonce : String)
    (nowMs : Nat) : HSToken :=
  signJwtHS cfg.stateSecret
    { nonce := nonce, iss := p.iss, client_id := p.client_id,
      target_link_uri := p.target_link_uri,
      exp := nowMs / 1000 + cfg.stateExpirationSeconds }

/-- Translation of LTITool.handleLogin over the memory backend.  The
fresh crypto.randomUUID nonce and the clock are passed in.  The nonce is
stored (expiry now + nonceExpirationSeconds) and the state token signed
before the launch config is resolved; a resolution failure surfaces
after the nonce write and nothing rolls the write back. -/
def handleLogin (cfg : LTIToolConfig) (store : MemoryStorage) (p : LoginParams)
    (freshNonce : String) (nowMs : Nat) :
    Except LoginError LoginResult × MemoryStorage :=
  let nonceExpiresAt := nowMs + cfg.nonceExpirationSeconds * 1000
  let store1 := store.storeNonce freshNonce nonceExpiresAt
  let state := loginState cfg p freshNonce nowMs
  match store1.getLaunchConfig p.iss p.client_id p.lti_deployment_id with
  | none => (.error .configNotFound, store1)
  | some launchConfig =>
    match parseURL launchConfig.authUrl with
    | none => (.error .invalidAuthUrl, store1)
    | some base =>
      let ps := setParam [] "scope" "openid"
      let ps := setParam ps "response_type" "id_token"
      let ps := setParam ps "response_mode" "form_post"
      let ps := setParam ps "prompt" "none"
      let ps := setParam ps "client_id" p.client_id
      let ps := setParam ps "redirect_uri" p.launchUrl
      let ps := setParam ps "login_hint" p.login_hint
      -- the compact JWT serialization of the state token is opaque in
      -- this model; the token itself is returned in LoginResult.state
      let ps := setParam ps "state" "compact-state-jwt"
      let ps := setParam ps "nonce" freshNonce
      let ps := setParam ps "lti_deployment_id" p.lti_deployment_id
      let ps :=
        match p.lti_message_hint with
        | some hint => setParam ps "lti_message_hint" hint
        | none => ps
      (.ok { redirect := { base := base, params := ps }, state := state,
             nonce := freshNonce },
       store1)

inductive VerifyError where
  /-- Throw at step 1: no issuer in token. -/
  | malformedToken
  /-- Throw inside getValidLaunchConfig at step 2: no valid launch
  config found. -/
  | configurationError
  /-- Throw of jwtVerify on the id token at step 3. -/
  | invalidSignature
  /-- Throw of jwtVerify on the state token at step 4. -/
  | invalidState
  /-- Throw at step 6: invalid client_id. -/
  | clientMismatch
  /-- Throw at step 7: nonce mismatch. -/
  | nonceMismatch
  /-- Throw at step 8: nonce has already been used or expired. -/
  | nonceReplay
deriving DecidableEq, Repr

/-- The clientId string the unverified aud claim turns into on the way
into getValidLaunchConfig: the source casts the decoded claim with
"as string" (a no-op at runtime) and the memory backend interpolates it
into the template literal issuer#clientId, where a JavaScript array
stringifies as its elements joined by commas. -/
def audLookupString : AudValue → String
  | .str s => s
  | .arr l => String.intercalate "," l

/-- The audience check of step 6, validated.aud !== launchConfig.clientId:
JavaScript strict equality between an array and a string is always
false, so an array-valued aud never passes, whatever its elements. -/
def audStrictEq : AudValue → String → Bool
  | .str s, c => s == c
  | .arr _, _ => false

/-- Translation of LTITool.verifyLaunch over the memory backend.  The
id token arrives in decoded form (decodeJwt of a malformed JWT string
is not modelled), jwks maps a jwksUrl to the signing key published
there, and the clock is passed in milliseconds; jose works in epoch
seconds, the storage comparisons in milliseconds, as in the source.
Step 5, LTI13JwtPayloadSchema.parse, is the identity on the already
schema-shaped payload type. -/
def verifyLaunch (cfg : LTIToolConfig) (jwks : String → String)
    (store : MemoryStorage) (idToken : RSToken) (state : HSToken) (nowMs : Nat) :
    Except VerifyError LTI13JwtPayload × MemoryStorage :=
  -- 1. read the issuer of the unverified token; the empty string is falsy
  if idToken.payload.iss = "" then (.error .malformedToken, store)
  else
    -- 2. resolve the launch config from the unverified iss, aud and
    -- deployment_id claims
    match store.getLaunchConfig idToken.payload.iss
        (audLookupString idToken.payload.aud) idToken.payload.deployment_id with
    | none => (.error .configurationError, store)
    | some launchConfig =>
      -- 3. verify the platform JWT against the remote key set
      match jwtVerifyRS idToken (jwks launchConfig.jwksUrl) (nowMs / 1000) with
      | none => (.error .invalidSignature, store)
      | some payload =>
        -- 4. verify the state JWT against the tool stateSecret
        match jwtVerifyHS state cfg.stateSecret (nowMs / 1000) with
        | none => (.error .invalidState, store)
        | some stateData =>
          -- 5. schema validation (identity on the typed payload)
          let validated := payload
          -- 6. audience check
          if !(audStrictEq validated.aud launchConfig.clientId) then
            (.error .clientMismatch, store)
          -- 7. nonce cross-check between state and launch payloads
          else if stateData.nonce != validated.nonce then
            (.error .nonceMismatch, store)
          else
            -- 8. atomic nonce consumption
            match store.validateNonce validated.nonce nowMs with
            | (true, store2) => (.ok validated, store2)
            | (false, store2) => (.error .nonceReplay, store2)

/-! ### Concrete scenario values used by witnesses and counterexamples -/

def clientCX : LTIClient :=
  { id := "internal-1", name := "Platform", iss := "https://platform.example",
    clientId := "c1", authUrl := "https://platform.example/auth",
    tokenUrl := "https://platform.example/token",
    jwksUrl := "https://platform.example/jwks",
    deployments := [{ id := "dint-1", deploymentId := "d1" }] }

def memStoreCX : MemoryStorage :=
  { clients := [("internal-1", clientCX)],
    clientLookup := [("https://platform.example#c1", "internal-1")],
    sessions := [],
    nonces := [("nonce-1", 600000)] }

def mysqlEmptyCX : MySqlState :=
  { clients := [], deployments := [], nonceRows := [], sessionRows := [],
    sessionCache := [], launchConfigCache := [], nonceExpirationSeconds := 600 }

def cfgCX : LTIToolConfig :=
  { stateSecret := "secret-1", nonceExpirationSeconds := 600,
    stateExpirationSeconds := 600 }

def jwksCX : String → String := fun url =>
  if url = "https://platform.example/jwks" then "platform-key" else "other-key"

def payloadCX : LTI13JwtPayload :=
  { iss := "https://platform.example", sub := "user-1", aud := .str "c1",
    exp := 2000, iat := 0, nonce := "nonce-1",
    given_name := "Ada", family_name := "Lovelace", name := "Ada Lovelace",
    email := "ada@example.com", message_type := .resourceLinkRequest,
    deployment_id := "d1", target_link_uri := "https://tool.example/content" }

def idTokenCX : RSToken := { payload := payloadCX, signedWith := "platform-key" }

def stateTokenCX : HSToken :=
  signJwtHS "secret-1"
    { nonce := "nonce-1", iss := "https://platform.example", client_id := "c1",
      target_link_uri := "https://tool.example/content", exp := 2000 }

/-! ### Nonce behaviour (claims C1 and C3) -/

/-- Results of a sequence of validateNonce calls for a fixed nonce on
the memory backend, at the given call times. -/
def memNonceRun (s : MemoryStorage) (n : String) : List Nat → List Bool
  | [] => []
  | t :: ts =>
    let r := s.validateNonce n t
    r.1 :: memNonceRun r.2 n ts

/-- Results of a sequence of validateNonce calls for a fixed nonce on
the MySQL backend, at the given call times. -/
def mysqlNonceRun (m : MySqlState) (n : String) : List Nat → List Bool
  | [] => []
  | t :: ts =>
    let r := m.validateNonce n t
    r.1 :: mysqlNonceRun r.2 n ts

theorem mem_validateNonce_absent (s : MemoryStorage) (n : String) (t : Nat)
    (h : mlookup s.nonces n = none) : s.validateNonce n t = (false, s) := by
  unfold MemoryStorage.validateNonce
  rw [h]

theorem mem_validateNonce_clears (s : MemoryStorage) (n : String) (t : Nat) :
    mlookup ((s.validateNonce n t).2).nonces n = none := by
  unfold MemoryStorage.validateNonce
  cases hl : mlookup s.nonces n with
  | none => simpa using hl
  | some e =>
    by_cases he : e < t <;> simp [he, mlookup_merase]

theorem memNonceRun_absent (s : MemoryStorage) (n : String) (ts : List Nat)
    (h : mlookup s.nonces n = none) :
    memNonceRun s n ts = List.replicate ts.length false := by
  induction ts generalizing s with
  | nil => rfl
  | cons t ts ih =>
    simp only [memNonceRun, mem_validateNonce_absent s n t h]
    simp [ih s h, List.replicate]

theorem mysql_validateNonce_present (m : MySqlState) (n : String) (t e : Nat)
    (h : mlookup m.nonceRows n = some e) : m.validateNonce n t = (false, m) := by
  unfold MySqlState.validateNonce
  cases hf : m.nonceRows.find? (fun r => r.1 == n && decide (t < r.2)) with
  | some r => rfl
  | none => simp [h]

theorem mysql_validateNonce_fresh (m : MySqlState) (n : String) (t : Nat)
    (h : mlookup m.nonceRows n = none) :
    m.validateNonce n t =
      (true, { m with
        nonceRows := (n, t + m.nonceExpirationSeconds * 1000) :: m.nonceRows }) := by
  unfold MySqlState.validateNonce
  have hp : ∀ x : String × Nat, (x.1 == n && decide (t < x.2)) = true → x.1 = n := by
    intro x hx
    simp only [Bool.and_eq_true, beq_iff_eq] at hx
    exact hx.1
  rw [find?_key_none_of_mlookup_none m.nonceRows n _ hp h]
  simp [h]

theorem mysqlNonceRun_present (m : MySqlState) (n : String) (ts : List Nat)
    (e : Nat) (h : mlookup m.nonceRows n = some e) :
    mysqlNonceRun m n ts = List.replicate ts.length false := by
  induction ts with
  | nil => rfl
  | cons t ts ih =>
    simp only [mysqlNonceRun, mysql_validateNonce_present m n t e h]
    simp [ih, List.replicate]

/-- C1.  Nonce single-use: on both the memory and the MySQL backend,
after storeNonce(n, e) with e in the future (on the memory backend the
first call must come before the stored expiry; the MySQL storeNonce is
a no-op, so there the nonce must simply be absent from the table), a
sequence of validateNonce(n) calls returns true on the first call and
false on every subsequent call - no two calls for the same value both
return true. -/
theorem nonce_single_use
    (s : MemoryStorage) (m : MySqlState) (n : String) (e t : Nat) (ts : List Nat)
    (hmem : t ≤ e) (hmysql : mlookup m.nonceRows n = none) :
    memNonceRun (s.storeNonce n e) n (t :: ts)
      = true :: List.replicate ts.length false
    ∧ mysqlNonceRun (m.storeNonce n e) n (t :: ts)
      = true :: List.replicate ts.length false := by
  constructor
  · have h1 : (s.storeNonce n e).validateNonce n t =
        (true, { s.storeNonce n e with
                 nonces := merase (s.storeNonce n e).nonces n }) := by
      unfold MemoryStorage.validateNonce MemoryStorage.storeNonce
      simp only [mlookup_minsert]
      rw [if_neg (Nat.not_lt.mpr hmem)]
    simp only [memNonceRun, h1]
    rw [memNonceRun_absent _ n ts (by simpa using mlookup_merase (s.storeNonce n e).nonces n)]
  · have h1 := mysql_validateNonce_fresh m n t hmysql
    simp only [MySqlState.storeNonce, mysqlNonceRun, h1]
    rw [mysqlNonceRun_present _ n ts (t + m.nonceExpirationSeconds * 1000)
      (by simpa using mlookup_cons n (t + m.nonceExpirationSeconds * 1000) m.nonceRows n)]

/-- Witness for C1 at a concrete input: empty stores, a nonce stored
with expiry 5000 ms, calls at 1000, 2000 and 9999 ms. -/
theorem nonce_single_use_witness :
    ((1000 : Nat) ≤ 5000 ∧ mlookup mysqlEmptyCX.nonceRows "n1" = none)
    ∧ (memNonceRun ((MemoryStorage.mk [] [] [] []).storeNonce "n1" 5000) "n1"
          [1000, 2000, 9999] = [true, false, false]
      ∧ mysqlNonceRun (mysqlEmptyCX.storeNonce "n1" 5000) "n1"
          [1000, 2000, 9999] = [true, false, false]) :=
  ⟨⟨by decide, by decide⟩,
   nonce_single_use (MemoryStorage.mk [] [] [] []) mysqlEmptyCX "n1" 5000 1000
     [2000, 9999] (by decide) (by decide)⟩

/-- C3 counterexample: on the MySQL backend a nonce that was never
stored validates TRUE on the first call - validateNonce is an
insert-if-absent, and storeNonce is a no-op - contradicting the claim
that every backend returns false for a never-stored nonce. -/
theorem never_stored_nonce_counterexample :
    (mysqlEmptyCX.validateNonce "nonce-never-stored" 1000).1 = true := by decide

/-- The memory store of the concrete scenario with no stored nonce. -/
def memStoreNoNonceCX : MemoryStorage := { memStoreCX with nonces := [] }

/-- C3 (amended).  The memory backend returns false from validateNonce
for a never-stored nonce and for one whose stored expiry has passed, so
a memory-backed verifyLaunch fails its final nonce-consumption step
(NonceReplay) for a nonce value that no login flow created; the MySQL
backend returns false whenever a row for the nonce exists (consumed or
expired) but returns true on the first call for a nonce absent from its
table, its validateNonce being an insert-if-absent. -/
theorem nonce_validation_semantics :
    (∀ (s : MemoryStorage) (n : String) (now : Nat),
        mlookup s.nonces n = none → (s.validateNonce n now).1 = false)
    ∧ (∀ (s : MemoryStorage) (n : String) (e now : Nat),
        mlookup s.nonces n = some e → e < now → (s.validateNonce n now).1 = false)
    ∧ (∀ (m : MySqlState) (n : String) (e now : Nat),
        mlookup m.nonceRows n = some e → (m.validateNonce n now).1 = false)
    ∧ (∀ (m : MySqlState) (n : String) (now : Nat),
        mlookup m.nonceRows n = none → (m.validateNonce n now).1 = true)
    ∧ (verifyLaunch cfgCX jwksCX memStoreNoNonceCX idTokenCX stateTokenCX
        100000).1 = .error .nonceReplay := by
  refine ⟨?_, ?_, ?_, ?_, rfl⟩
  · intro s n now h
    rw [mem_validateNonce_absent s n now h]
  · intro s n e now h hlt
    unfold MemoryStorage.validateNonce
    rw [h]
    simp [hlt]
  · intro m n e now h
    rw [mysql_validateNonce_present m n now e h]
  · intro m n now h
    rw [mysql_validateNonce_fresh m n now h]

/-- Witness for C3 (amended) at concrete inputs: an absent nonce and an
expired one on the memory backend, a present row and an absent one on
the MySQL backend. -/
theorem nonce_validation_semantics_witness :
    (mlookup (MemoryStorage.mk [] [] [] []).nonces "n1" = none
      ∧ mlookup memStoreCX.nonces "nonce-1" = some 600000 ∧ 600000 < 700000
      ∧ mlookup (mysqlEmptyCX.storeNonce "n1" 5000).nonceRows "n1" = none)
    ∧ ((MemoryStorage.mk [] [] [] []).validateNonce "n1" 100).1 = false
    ∧ (memStoreCX.validateNonce "nonce-1" 700000).1 = false
    ∧ (mysqlEmptyCX.validateNonce "n1" 100).1 = true :=
  ⟨⟨by decide, by decide, by decide, by decide⟩,
   nonce_validation_semantics.1 (MemoryStorage.mk [] [] [] []) "n1" 100 (by decide),
   nonce_validation_semantics.2.1 memStoreCX "nonce-1" 600000 700000 (by decide)
     (by decide),
   nonce_validation_semantics.2.2.2.1 mysqlEmptyCX "n1" 100 (by decide)⟩

/-! ### Launch config fallback (claim C2) -/

theorem cacheGet_nil {α : Type} (ttl : Nat) (k : String) (now : Nat) :
    cacheGet (α := α) ttl [] k now = none := rfl

/-- A memory store whose only deployment for the registered client is
the synthetic "default" one. -/
def memStoreDefaultCX : MemoryStorage :=
  { clients :=
      [("internal-1",
        { clientCX with deployments := [{ id := "dint-2", deploymentId := "default" }] })],
    clientLookup := [("https://platform.example#c1", "internal-1")],
    sessions := [], nonces := [] }

/-- C2 counterexample: the memory backend does not retry with the
"default" deployment - getLaunchConfig for an unmatched deploymentId
returns none even though a config stored under "default" exists,
contradicting the for-every-backend fallback claim. -/
theorem launch_config_fallback_counterexample :
    memStoreDefaultCX.getLaunchConfig "https://platform.example" "c1" "section-42"
      = none
    ∧ (memStoreDefaultCX.getLaunchConfig "https://platform.example" "c1"
        "default").isSome = true := by decide

/-- C2 (amended).  The MySQL backend, on a cold cache, retries once with
deploymentId = "default" when the exact join finds nothing and the
requested deploymentId is not "default", returning the config derived
from the "default" row or none when neither exists; the memory backend
performs no fallback and returns none whenever the resolved client has
no deployment exactly matching the requested deploymentId. -/
theorem launch_config_fallback :
    (∀ (m : MySqlState) (iss cid did : String) (now : Nat),
        m.launchConfigCache = [] →
        m.rowsJoin iss cid did = none →
        did ≠ "default" →
        (m.getLaunchConfig iss cid did now).1 =
          (m.rowsJoin iss cid "default").map launchConfigOfJoin)
    ∧ (∀ (s : MemoryStorage) (iss cid did intId : String) (c : LTIClient),
        mlookup s.clientLookup (iss ++ "#" ++ cid) = some intId →
        mlookup s.clients intId = some c →
        c.deployments.find? (fun d => d.deploymentId == did) = none →
        s.getLaunchConfig iss cid did = none) := by
  constructor
  · intro m iss cid did now hcache hjoin hdid
    have hne : (did != "default") = true := by simpa using hdid
    unfold MySqlState.getLaunchConfig MySqlState.getLaunchConfigStep
    simp only [hcache, cacheGet_nil, hjoin, hne, if_true]
    cases hj : m.rowsJoin iss cid "default" with
    | none => simp [hj]
    | some r => simp [hj]
  · intro s iss cid did intId c h1 h2 h3
    unfold MemoryStorage.getLaunchConfig
    simp only [h1, h2, h3]

/-- Witness for C2 (amended) at concrete inputs: a MySQL state whose
only deployment row is "default", queried for "section-42", and the
memory store of the counterexample. -/
def mysqlDefaultCX : MySqlState :=
  { clients := [{ id := "int-1", name := "Platform", iss := "https://platform.example",
                  clientId := "c1", authUrl := "https://platform.example/auth",
                  tokenUrl := "https://platform.example/token",
                  jwksUrl := "https://platform.example/jwks" }],
    deployments := [{ id := "dint-3", clientId := "int-1", deploymentId := "default" }],
    nonceRows := [], sessionRows := [], sessionCache := [], launchConfigCache := [],
    nonceExpirationSeconds := 600 }

theorem launch_config_fallback_witness :
    (mysqlDefaultCX.launchConfigCache = []
      ∧ mysqlDefaultCX.rowsJoin "https://platform.example" "c1" "section-42" = none
      ∧ "section-42" ≠ "default"
      ∧ mlookup memStoreDefaultCX.clientLookup "https://platform.example#c1"
          = some "internal-1")
    ∧ (mysqlDefaultCX.getLaunchConfig "https://platform.example" "c1" "section-42"
        0).1 =
        (mysqlDefaultCX.rowsJoin "https://platform.example" "c1" "default").map
          launchConfigOfJoin
    ∧ memStoreDefaultCX.getLaunchConfig "https://platform.example" "c1" "section-42"
        = none :=
  ⟨⟨by decide, by decide, by decide, by decide⟩,
   launch_config_fallback.1 mysqlDefaultCX "https://platform.example" "c1"
     "section-42" 0 (by decide) (by decide) (by decide),
   launch_config_fallback.2 memStoreDefaultCX "https://platform.example" "c1"
     "section-42" "internal-1"
     { clientCX with deployments := [{ id := "dint-2", deploymentId := "default" }] }
     (by decide) (by decide) (by decide)⟩

/-! ### Session expiry on read (claim C6) -/

def sessCX : LTISession :=
  { jwtPayload := payloadCX, id := "session-1",
    user := { id := "user-1", name := none, email := none, familyName := none,
              givenName := none, roles := [] },
    context := { id := "", label := "", title := "" },
    platform := { issuer := "https://platform.example", clientId := some "c1",
                  deploymentId := "d1", name := "Platform" },
    launch := { target := "https://tool.example/content" },
    resourceLink := none, customParameters := [], services := none,
    isAdmin := false, isInstructor := false, isStudent := false,
    isAssignmentAndGradesAvailable := false, isDeepLinkingAvailable := false,
    isNameAndRolesAvailable := false }

/-- C6 counterexample: a session added to the memory backend is still
returned by getSession - the memory backend stores no expiry for
sessions and its read takes no clock, so the session is readable at any
later time; the same add-then-read-a-day-later sequence on the MySQL
backend returns none.  This contradicts the for-every-backend claim
that reads re-check expiry. -/
theorem session_expiry_counterexample :
    ((MemoryStorage.mk [] [] [] []).addSession sessCX).getSession "session-1"
      = some sessCX
    ∧ ((mysqlEmptyCX.addSession sessCX 0).getSession "session-1"
        (SESSION_TTL * 1000 + 1000)).1 = none := by decide

/-- C6 (amended).  The MySQL backend's getSession re-checks expiry in
its database query: whenever the in-process session cache holds no
fresh entry for the id and every stored row for the id has expired, the
read returns none even though the rows are still physically present.
The memory backend stores sessions without any expiry and its
clock-free getSession returns an added session unconditionally. -/
theorem session_expiry_on_read :
    (∀ (m : MySqlState) (sid : String) (now : Nat),
        cacheGet SESSION_CACHE_TTL_MS m.sessionCache sid now = none →
        (∀ r ∈ m.sessionRows, r.1 = sid → r.2.2 ≤ now) →
        (m.getSession sid now).1 = none)
    ∧ (∀ (s : MemoryStorage) (sess : LTISession),
        ((s.addSession sess).getSession sess.id) = some sess) := by
  constructor
  · intro m sid now hcache hexp
    unfold MySqlState.getSession
    rw [hcache]
    have hfind : m.sessionRows.find?
        (fun r => r.1 == sid && decide (now < r.2.2)) = none := by
      rw [List.find?_eq_none]
      intro x hx hpx
      simp only [Bool.and_eq_true, beq_iff_eq, decide_eq_true_eq] at hpx
      exact absurd hpx.2 (Nat.not_lt.mpr (hexp x hx hpx.1))
    rw [hfind]
  · intro s sess
    unfold MemoryStorage.getSession MemoryStorage.addSession
    exact mlookup_minsert s.sessions sess.id sess

/-- Witness for C6 (amended): the MySQL state of the counterexample one
second after the one-day session ttl, and the empty memory store. -/
theorem session_expiry_on_read_witness :
    (cacheGet SESSION_CACHE_TTL_MS (mysqlEmptyCX.addSession sessCX 0).sessionCache
        "session-1" (SESSION_TTL * 1000 + 1000) = none
      ∧ ∀ r ∈ (mysqlEmptyCX.addSession sessCX 0).sessionRows,
          r.1 = "session-1" → r.2.2 ≤ SESSION_TTL * 1000 + 1000)
    ∧ ((mysqlEmptyCX.addSession sessCX 0).getSession "session-1"
        (SESSION_TTL * 1000 + 1000)).1 = none
    ∧ ((MemoryStorage.mk [] [] [] []).addSession sessCX).getSession sessCX.id
        = some sessCX :=
  ⟨⟨by decide, by decide⟩,
   session_expiry_on_read.1 (mysqlEmptyCX.addSession sessCX 0) "session-1"
     (SESSION_TTL * 1000 + 1000) (by decide) (by decide),
   session_expiry_on_read.2 (MemoryStorage.mk [] [] [] []) sessCX⟩

/-! ### State token round-trip (claim C7) -/

theorem handleLogin_state_eq (cfg : LTIToolConfig) (store : MemoryStorage)
    (p : LoginParams) (n : String) (t0 : Nat) (r : LoginResult)
    (hr : (handleLogin cfg store p n t0).1 = .ok r) :
    r.state = loginState cfg p n t0 := by
  simp only [handleLogin] at hr
  cases hcfg : (store.storeNonce n (t0 + cfg.nonceExpirationSeconds * 1000)).getLaunchConfig
      p.iss p.client_id p.lti_deployment_id with
  | none =>
    simp only [hcfg] at hr
    exact Except.noConfusion hr
  | some lc =>
    simp only [hcfg] at hr
    cases hurl : parseURL lc.authUrl with
    | none =>
      simp only [hurl] at hr
      exact Except.noConfusion hr
    | some base =>
      simp only [hurl, Except.ok.injEq] at hr
      rw [← hr]

/-- C7.  Round-trip of the state token: the state JWT produced by
handleLogin (HS256 under the tool stateSecret, carrying nonce, iss,
client_id, target_link_uri and exp = floor(now / 1000) +
stateExpirationSeconds) verifies - via the same jwtVerifyHS that
verifyLaunch step 4 applies with cfg.stateSecret - at every instant
strictly before its exp, fails once exp has passed, and fails under any
different stateSecret. -/
theorem state_token_roundtrip (cfg : LTIToolConfig) (store : MemoryStorage)
    (p : LoginParams) (n : String) (t0 : Nat) (r : LoginResult)
    (hr : (handleLogin cfg store p n t0).1 = .ok r) :
    (∀ nowSec, nowSec < t0 / 1000 + cfg.stateExpirationSeconds →
      jwtVerifyHS r.state cfg.stateSecret nowSec =
        some { nonce := n, iss := p.iss, client_id := p.client_id,
               target_link_uri := p.target_link_uri,
               exp := t0 / 1000 + cfg.stateExpirationSeconds })
    ∧ (∀ nowSec, t0 / 1000 + cfg.stateExpirationSeconds ≤ nowSec →
      jwtVerifyHS r.state cfg.stateSecret nowSec = none)
    ∧ (∀ (k : String) (nowSec : Nat), k ≠ cfg.stateSecret →
      jwtVerifyHS r.state k nowSec = none) := by
  have hst := handleLogin_state_eq cfg store p n t0 r hr
  rw [hst]
  unfold loginState signJwtHS jwtVerifyHS
  refine ⟨?_, ?_, ?_⟩
  · intro nowSec hlt
    rw [if_pos ⟨rfl, hlt⟩]
  · intro nowSec hge
    rw [if_neg]
    rintro ⟨-, hlt⟩
    exact absurd hlt (Nat.not_lt.mpr hge)
  · intro k nowSec hk
    rw [if_neg]
    rintro ⟨hkk, -⟩
    exact hk hkk.symm

/-- Login parameters of the concrete scenario. -/
def loginParamsCX : LoginParams :=
  { client_id := "c1", iss := "https://platform.example",
    launchUrl := "https://tool.example/launch", login_hint := "u1",
    target_link_uri := "https://tool.example/content",
    lti_deployment_id := "d1" }

/-- The login result handleLogin produces for the concrete scenario at
t0 = 5000 ms with fresh nonce n-new. -/
def loginResultCX : LoginResult :=
  { redirect :=
      { base := { scheme := "https", host := "platform.example",
                  pathname := "/auth", search := "" },
        params :=
          [("scope", "openid"), ("response_type", "id_token"),
           ("response_mode", "form_post"), ("prompt", "none"),
           ("client_id", "c1"), ("redirect_uri", "https://tool.example/launch"),
           ("login_hint", "u1"), ("state", "compact-state-jwt"),
           ("nonce", "n-new"), ("lti_deployment_id", "d1")] },
    state := loginState cfgCX loginParamsCX "n-new" 5000,
    nonce := "n-new" }

/-- Witness for C7 at the concrete scenario: handleLogin succeeds at
5000 ms, its state token verifies before epoch second 605 under
secret-1 and fails after or under another secret. -/
theorem state_token_roundtrip_witness :
    ((handleLogin cfgCX memStoreCX loginParamsCX "n-new" 5000).1
      = .ok loginResultCX)
    ∧ ((∀ nowSec, nowSec < 5000 / 1000 + cfgCX.stateExpirationSeconds →
        jwtVerifyHS loginResultCX.state cfgCX.stateSecret nowSec =
          some { nonce := "n-new", iss := loginParamsCX.iss,
                 client_id := loginParamsCX.client_id,
                 target_link_uri := loginParamsCX.target_link_uri,
                 exp := 5000 / 1000 + cfgCX.stateExpirationSeconds })
      ∧ (∀ nowSec, 5000 / 1000 + cfgCX.stateExpirationSeconds ≤ nowSec →
        jwtVerifyHS loginResultCX.state cfgCX.stateSecret nowSec = none)
      ∧ (∀ (k : String) (nowSec : Nat), k ≠ cfgCX.stateSecret →
        jwtVerifyHS loginResultCX.state k nowSec = none)) :=
  ⟨by rfl,
   state_token_roundtrip cfgCX memStoreCX loginParamsCX "n-new" 5000 loginResultCX
     (by rfl)⟩

/-! ### Nonce persistence across failing logins (claim C9) -/

theorem storeNonce_getLaunchConfig (s : MemoryStorage) (n : String) (e : Nat)
    (iss cid did : String) :
    (s.storeNonce n e).getLaunchConfig iss cid did = s.getLaunchConfig iss cid did := rfl

/-- C9.  When handleLogin fails because no LaunchConfig exists for the
given (iss, client_id, lti_deployment_id), the freshly generated nonce
has already been persisted via storeNonce - with expiry
now + nonceExpirationSeconds - before the failure, and nothing removes
it afterwards: the failing call returns the configuration error and
leaves the nonce stored and unconsumed; when the nonce is fresh the
nonce map has grown by exactly one entry. -/
theorem failing_login_persists_nonce (cfg : LTIToolConfig) (store : MemoryStorage)
    (p : LoginParams) (n : String) (t0 : Nat)
    (hcfg : store.getLaunchConfig p.iss p.client_id p.lti_deployment_id = none) :
    (handleLogin cfg store p n t0).1 = .error .configNotFound
    ∧ (handleLogin cfg store p n t0).2.nonces
        = minsert store.nonces n (t0 + cfg.nonceExpirationSeconds * 1000)
    ∧ mlookup (handleLogin cfg store p n t0).2.nonces n
        = some (t0 + cfg.nonceExpirationSeconds * 1000)
    ∧ (mlookup store.nonces n = none →
        ((handleLogin cfg store p n t0).2.nonces).length
          = store.nonces.length + 1) := by
  have hcfg2 : (store.storeNonce n (t0 + cfg.nonceExpirationSeconds * 1000)).getLaunchConfig
      p.iss p.client_id p.lti_deployment_id = none := by
    rw [storeNonce_getLaunchConfig]
    exact hcfg
  refine ⟨?_, ?_, ?_, ?_⟩
  · simp only [handleLogin, hcfg2]
  · simp only [handleLogin, hcfg2]
    rfl
  · simp only [handleLogin, hcfg2]
    exact mlookup_minsert store.nonces n (t0 + cfg.nonceExpirationSeconds * 1000)
  · intro hfresh
    simp only [handleLogin, hcfg2]
    show (minsert store.nonces n (t0 + cfg.nonceExpirationSeconds * 1000)).length
        = store.nonces.length + 1
    unfold minsert
    rw [merase_of_mlookup_none store.nonces n hfresh]
    rfl

/-- Witness for C9 at the concrete scenario: the registered client has
no deployment "missing-dep", so handleLogin fails after storing the
fresh nonce n-9. -/
theorem failing_login_persists_nonce_witness :
    (memStoreCX.getLaunchConfig "https://platform.example" "c1" "missing-dep" = none
      ∧ mlookup memStoreCX.nonces "n-9" = none)
    ∧ (handleLogin cfgCX memStoreCX
        { loginParamsCX with lti_deployment_id := "missing-dep" } "n-9" 7000).1
        = .error .configNotFound
    ∧ (handleLogin cfgCX memStoreCX
        { loginParamsCX with lti_deployment_id := "missing-dep" } "n-9" 7000).2.nonces
        = minsert memStoreCX.nonces "n-9" (7000 + cfgCX.nonceExpirationSeconds * 1000)
    ∧ mlookup (handleLogin cfgCX memStoreCX
        { loginParamsCX with lti_deployment_id := "missing-dep" } "n-9" 7000).2.nonces
        "n-9" = some (7000 + cfgCX.nonceExpirationSeconds * 1000)
    ∧ (mlookup memStoreCX.nonces "n-9" = none →
        ((handleLogin cfgCX memStoreCX
          { loginParamsCX with lti_deployment_id := "missing-dep" } "n-9"
          7000).2.nonces).length = memStoreCX.nonces.length + 1) :=
  ⟨⟨by decide, by decide⟩,
   failing_login_persists_nonce cfgCX memStoreCX
     { loginParamsCX with lti_deployment_id := "missing-dep" } "n-9" 7000
     (by decide)⟩

/-! ### Session builder properties (claims C8 and C10) -/

theorem createSession_some_elim (p : LTI13JwtPayload) (fid : String)
    (sess : LTISession) (h : createSession p fid = some sess) :
    sess.context =
      { id := jsStrOr (p.context.map (·.id)) ""
        label := jsStrOr (p.context.bind (·.label)) (jsStrOr (p.context.map (·.id)) "")
        title := jsStrOr (p.context.bind (·.title)) "" }
    ∧ sess.platform.clientId = audFirst p.aud := by
  unfold createSession at h
  cases hep : p.ags_endpoint with
  | none =>
    simp only [hep, Option.some.injEq] at h
    rw [← h]
    exact ⟨rfl, rfl⟩
  | some ep =>
    simp only [hep] at h
    cases hli : ep.lineitem with
    | none =>
      simp only [hli, Option.some.injEq] at h
      rw [← h]
      exact ⟨rfl, rfl⟩
    | some li =>
      simp only [hli] at h
      cases hu : parseURL li with
      | none =>
        simp only [hu] at h
        exact Option.noConfusion h
      | some u =>
        simp only [hu, Option.some.injEq] at h
        rw [← h]
        exact ⟨rfl, rfl⟩

/-- Payload of the concrete scenario carrying a context claim with an id
but neither label nor title. -/
def payloadCtxCX : LTI13JwtPayload :=
  { payloadCX with context := some { id := "ctx-1" } }

/-- C8 counterexample: for a context claim with id ctx-1 and absent
label and title, createSession yields label ctx-1 (the id fallback) but
title empty - the title does NOT fall back to the context id, so the
two fields do not follow the same precedence. -/
theorem context_title_counterexample :
    (createSession payloadCtxCX "s-1").map (fun s => (s.context.label, s.context.title))
      = some ("ctx-1", "")
    ∧ ("" : String) ≠ "ctx-1" := by decide

/-- C8 (amended).  In createSession the context label equals the label
claim when that is present and non-empty, and falls back to the context
id (itself defaulting to the empty string) otherwise; the context title
equals the title claim when present and non-empty and falls back
directly to the empty string - never to the context id. -/
theorem context_label_title_fallback (p : LTI13JwtPayload) (fid : String)
    (sess : LTISession) (ctx : ContextClaim)
    (hs : createSession p fid = some sess) (hctx : p.context = some ctx) :
    ((ctx.label = none ∨ ctx.label = some "") → sess.context.label = ctx.id)
    ∧ (∀ l, ctx.label = some l → l ≠ "" → sess.context.label = l)
    ∧ ((ctx.title = none ∨ ctx.title = some "") → sess.context.title = "")
    ∧ (∀ t, ctx.title = some t → t ≠ "" → sess.context.title = t)
    ∧ (ctx.title = none → ctx.id ≠ "" → sess.context.title ≠ ctx.id) := by
  have hc := (createSession_some_elim p fid sess hs).1
  rw [hctx] at hc
  have hid : jsStrOr (some ctx.id) "" = ctx.id := by
    unfold jsStrOr
    by_cases h : ctx.id = "" <;> simp [h]
  refine ⟨?_, ?_, ?_, ?_, ?_⟩
  · rintro (hl | hl) <;>
      simp [hc, hl, jsStrOr] <;>
      exact fun h => h.symm
  · intro l hl hne
    simp [hc, hl, jsStrOr, hne]
  · rintro (ht | ht) <;>
      simp [hc, ht, jsStrOr]
  · intro t ht hne
    simp [hc, ht, jsStrOr, hne]
  · intro ht hne
    simp [hc, ht, jsStrOr]
    exact fun h => hne h.symm

/-- Witness for C8 (amended) at the concrete payload with context id
ctx-1 and absent label and title. -/
theorem context_label_title_fallback_witness :
    (createSession payloadCtxCX "s-1"
        = some ((createSession payloadCtxCX "s-1").getD sessCX)
      ∧ payloadCtxCX.context = some { id := "ctx-1" })
    ∧ ((({ id := "ctx-1" } : ContextClaim).label = none
          ∨ ({ id := "ctx-1" } : ContextClaim).label = some "") →
        ((createSession payloadCtxCX "s-1").getD sessCX).context.label = "ctx-1")
    ∧ (∀ l, ({ id := "ctx-1" } : ContextClaim).label = some l → l ≠ "" →
        ((createSession payloadCtxCX "s-1").getD sessCX).context.label = l)
    ∧ ((({ id := "ctx-1" } : ContextClaim).title = none
          ∨ ({ id := "ctx-1" } : ContextClaim).title = some "") →
        ((createSession payloadCtxCX "s-1").getD sessCX).context.title = "")
    ∧ (∀ t, ({ id := "ctx-1" } : ContextClaim).title = some t → t ≠ "" →
        ((createSession payloadCtxCX "s-1").getD sessCX).context.title = t)
    ∧ (({ id := "ctx-1" } : ContextClaim).title = none → "ctx-1" ≠ "" →
        ((createSession payloadCtxCX "s-1").getD sessCX).context.title ≠ "ctx-1") :=
  ⟨⟨by decide, by decide⟩,
   context_label_title_fallback payloadCtxCX "s-1"
     ((createSession payloadCtxCX "s-1").getD sessCX) { id := "ctx-1" }
     (by decide) (by decide)⟩

/-- Whether the AGS lineitem claim, when present, is a parseable URL:
the guard under which createSession cannot throw. -/
def agsLineitemParses (p : LTI13JwtPayload) : Bool :=
  match p.ags_endpoint with
  | none => true
  | some ep =>
    match ep.lineitem with
    | none => true
    | some li => (parseURL li).isSome

/-- Payload whose AGS lineitem is a string that is not a well-formed
URL (the schema only requires a string). -/
def payloadBadAgsCX : LTI13JwtPayload :=
  { payloadCX with ags_endpoint := some { scope := [], lineitem := some "not a url" } }

/-- Payload whose AGS lineitem is a well-formed URL. -/
def payloadGoodAgsCX : LTI13JwtPayload :=
  { payloadCX with
    ags_endpoint := some { scope := ["scope-a"],
                           lineitem := some "https://example.com/li?x=1" } }

/-- C10.  createSession is not total on schema-valid payloads: for the
concrete payload whose AGS lineitem is the string "not a url" it throws
at the URL parse (returns none); and for every payload whose AGS
lineitem is absent or a parseable URL it returns a session. -/
theorem createSession_partiality :
    createSession payloadBadAgsCX "s-1" = none
    ∧ (∀ (p : LTI13JwtPayload) (fid : String),
        agsLineitemParses p = true → (createSession p fid).isSome = true) := by
  constructor
  · decide
  · intro p fid h
    unfold agsLineitemParses at h
    unfold createSession
    cases hep : p.ags_endpoint with
    | none => simp [hep]
    | some ep =>
      simp only [hep] at h
      cases hli : ep.lineitem with
      | none => simp [hep, hli]
      | some li =>
        simp only [hli] at h
        cases hu : parseURL li with
        | none =>
          rw [hu] at h
          exact absurd h (by simp)
        | some u => simp [hep, hli, hu]

/-- Witness for C10 at the concrete payload with a well-formed lineitem
URL. -/
theorem createSession_partiality_witness :
    agsLineitemParses payloadGoodAgsCX = true
    ∧ (createSession payloadGoodAgsCX "s-2").isSome = true :=
  ⟨by decide, createSession_partiality.2 payloadGoodAgsCX "s-2" (by decide)⟩

/-! ### Audience handling in verifyLaunch (claims C4 and C5) -/

theorem jwtVerifyRS_some_eq (tok : RSToken) (k : String) (now : Nat)
    (x : LTI13JwtPayload) (h : jwtVerifyRS tok k now = some x) : x = tok.payload := by
  unfold jwtVerifyRS at h
  split at h
  · injection h with h
    exact h.symm
  · exact Option.noConfusion h

/-- The launch config the memory store of the concrete scenario resolves
for client c1 and deployment d1. -/
def launchConfigCX : LTILaunchConfig :=
  { iss := "https://platform.example", clientId := "c1", deploymentId := "d1",
    authUrl := "https://platform.example/auth",
    tokenUrl := "https://platform.example/token",
    jwksUrl := "https://platform.example/jwks" }

def payloadArrCX : LTI13JwtPayload := { payloadCX with aud := .arr ["c1"] }

def idTokenArrCX : RSToken := { payload := payloadArrCX, signedWith := "platform-key" }

def payloadWrongAudCX : LTI13JwtPayload := { payloadCX with aud := .str "c2" }

def idTokenWrongAudCX : RSToken :=
  { payload := payloadWrongAudCX, signedWith := "platform-key" }

/-- C4 counterexample: a correctly signed launch whose aud is the array
with first element c1 equal to the resolved clientId is rejected at
step 6 with ClientMismatch - the strict comparison never accepts an
array, so the check does not compare the first element as claimed (that
convention lives only in createSession). -/
theorem aud_first_element_counterexample :
    audFirst idTokenArrCX.payload.aud = some "c1"
    ∧ (memStoreCX.getLaunchConfig "https://platform.example"
        (audLookupString idTokenArrCX.payload.aud) "d1").map (·.clientId)
        = some "c1"
    ∧ (verifyLaunch cfgCX jwksCX memStoreCX idTokenArrCX stateTokenCX 100000).1
        = .error .clientMismatch :=
  ⟨by decide, by decide, rfl⟩

/-- C4 (amended).  In the audience check of verifyLaunch step 6 a
string aud passes exactly when it equals LaunchConfig.clientId, while
an array aud always fails the strict comparison - even when its first
element equals the clientId - yielding ClientMismatch once the earlier
steps pass; the first-element convention applies only in createSession,
whose session platform.clientId is the first array element. -/
theorem aud_check_semantics :
    (∀ (s c : String), audStrictEq (.str s) c = (s == c))
    ∧ (∀ (l : List String) (c : String), audStrictEq (.arr l) c = false)
    ∧ (∀ (cfg : LTIToolConfig) (jwks : String → String) (store : MemoryStorage)
        (idToken : RSToken) (state : HSToken) (nowMs : Nat) (lc : LTILaunchConfig)
        (l : List String),
        idToken.payload.iss ≠ "" →
        store.getLaunchConfig idToken.payload.iss
          (audLookupString idToken.payload.aud) idToken.payload.deployment_id
          = some lc →
        (jwtVerifyRS idToken (jwks lc.jwksUrl) (nowMs / 1000)).isSome = true →
        (jwtVerifyHS state cfg.stateSecret (nowMs / 1000)).isSome = true →
        idToken.payload.aud = .arr l →
        (verifyLaunch cfg jwks store idToken state nowMs).1 = .error .clientMismatch)
    ∧ (∀ (p : LTI13JwtPayload) (fid : String) (sess : LTISession),
        createSession p fid = some sess → sess.platform.clientId = audFirst p.aud) := by
  refine ⟨fun s c => rfl, fun l c => rfl, ?_, ?_⟩
  · intro cfg jwks store idToken state nowMs lc l hiss hlc hrs hhs haud
    unfold verifyLaunch
    rw [if_neg hiss]
    simp only [hlc]
    cases hrs2 : jwtVerifyRS idToken (jwks lc.jwksUrl) (nowMs / 1000) with
    | none =>
      rw [hrs2] at hrs
      exact absurd hrs (by simp)
    | some pl =>
      simp only [hrs2]
      cases hhs2 : jwtVerifyHS state cfg.stateSecret (nowMs / 1000) with
      | none =>
        rw [hhs2] at hhs
        exact absurd hhs (by simp)
      | some sd =>
        simp only [hhs2]
        have hpl : pl = idToken.payload := jwtVerifyRS_some_eq _ _ _ _ hrs2
        rw [hpl, haud]
        simp [audStrictEq]
  · intro p fid sess h
    exact (createSession_some_elim p fid sess h).2

/-- Witness for C4 (amended): the concrete array-aud scenario and the
concrete payload with string aud c1. -/
theorem aud_check_semantics_witness :
    (idTokenArrCX.payload.iss ≠ ""
      ∧ memStoreCX.getLaunchConfig idTokenArrCX.payload.iss
          (audLookupString idTokenArrCX.payload.aud)
          idTokenArrCX.payload.deployment_id = some launchConfigCX
      ∧ (jwtVerifyRS idTokenArrCX (jwksCX launchConfigCX.jwksUrl)
          (100000 / 1000)).isSome = true
      ∧ (jwtVerifyHS stateTokenCX cfgCX.stateSecret (100000 / 1000)).isSome = true
      ∧ idTokenArrCX.payload.aud = .arr ["c1"])
    ∧ (verifyLaunch cfgCX jwksCX memStoreCX idTokenArrCX stateTokenCX 100000).1
        = .error .clientMismatch :=
  ⟨⟨by decide, by decide, by decide, by decide, by decide⟩,
   aud_check_semantics.2.2.1 cfgCX jwksCX memStoreCX idTokenArrCX stateTokenCX
     100000 launchConfigCX ["c1"] (by decide) (by decide) (by decide) (by decide)
     (by decide)⟩

/-- C5 counterexample: a launch JWT carrying a valid platform signature
but aud c2 not matching the registered clientId c1 is rejected with the
configuration error thrown inside launch-config resolution (which uses
the unverified aud as the clientId lookup key), not with ClientMismatch
as the claim states. -/
theorem wrong_aud_counterexample :
    (jwtVerifyRS idTokenWrongAudCX "platform-key" 100).isSome = true
    ∧ (verifyLaunch cfgCX jwksCX memStoreCX idTokenWrongAudCX stateTokenCX
        100000).1 = .error .configurationError
    ∧ (verifyLaunch cfgCX jwksCX memStoreCX idTokenWrongAudCX stateTokenCX
        100000).1 ≠ .error .clientMismatch := by
  refine ⟨by decide, rfl, ?_⟩
  intro h
  have h2 : VerifyError.configurationError = VerifyError.clientMismatch :=
    Except.error.inj h
  exact VerifyError.noConfusion h2

/-- C5 (amended).  A launch JWT whose aud does not resolve a launch
config - in particular any string aud not registered under the issuer -
is rejected with ConfigurationError during resolution, before signature
verification, because resolution uses the unverified aud as the
clientId lookup key; ClientMismatch arises only when resolution
succeeds and the validated aud fails the strict comparison against the
resolved clientId (as an array-valued aud always does). -/
theorem aud_rejection_semantics :
    (∀ (cfg : LTIToolConfig) (jwks : String → String) (store : MemoryStorage)
        (idToken : RSToken) (state : HSToken) (nowMs : Nat),
        idToken.payload.iss ≠ "" →
        store.getLaunchConfig idToken.payload.iss
          (audLookupString idToken.payload.aud) idToken.payload.deployment_id
          = none →
        (verifyLaunch cfg jwks store idToken state nowMs).1
          = .error .configurationError)
    ∧ (∀ (cfg : LTIToolConfig) (jwks : String → String) (store : MemoryStorage)
        (idToken : RSToken) (state : HSToken) (nowMs : Nat) (lc : LTILaunchConfig),
        idToken.payload.iss ≠ "" →
        store.getLaunchConfig idToken.payload.iss
          (audLookupString idToken.payload.aud) idToken.payload.deployment_id
          = some lc →
        (jwtVerifyRS idToken (jwks lc.jwksUrl) (nowMs / 1000)).isSome = true →
        (jwtVerifyHS state cfg.stateSecret (nowMs / 1000)).isSome = true →
        audStrictEq idToken.payload.aud lc.clientId = false →
        (verifyLaunch cfg jwks store idToken state nowMs).1
          = .error .clientMismatch) := by
  constructor
  · intro cfg jwks store idToken state nowMs hiss hlc
    unfold verifyLaunch
    rw [if_neg hiss]
    simp only [hlc]
  · intro cfg jwks store idToken state nowMs lc hiss hlc hrs hhs haud
    unfold verifyLaunch
    rw [if_neg hiss]
    simp only [hlc]
    cases hrs2 : jwtVerifyRS idToken (jwks lc.jwksUrl) (nowMs / 1000) with
    | none =>
      rw [hrs2] at hrs
      exact absurd hrs (by simp)
    | some pl =>
      simp only [hrs2]
      cases hhs2 : jwtVerifyHS state cfg.stateSecret (nowMs / 1000) with
      | none =>
        rw [hhs2] at hhs
        exact absurd hhs (by simp)
      | some sd =>
        simp only [hhs2]
        have hpl : pl = idToken.payload := jwtVerifyRS_some_eq _ _ _ _ hrs2
        rw [hpl, haud]
        simp

/-- Witness for C5 (amended): the concrete wrong-string-aud scenario for
the resolution failure and the concrete array-aud scenario for the
strict-comparison failure. -/
theorem aud_rejection_semantics_witness :
    (idTokenWrongAudCX.payload.iss ≠ ""
      ∧ memStoreCX.getLaunchConfig idTokenWrongAudCX.payload.iss
          (audLookupString idTokenWrongAudCX.payload.aud)
          idTokenWrongAudCX.payload.deployment_id = none
      ∧ audStrictEq idTokenArrCX.payload.aud launchConfigCX.clientId = false)
    ∧ (verifyLaunch cfgCX jwksCX memStoreCX idTokenWrongAudCX stateTokenCX
        100000).1 = .error .configurationError
    ∧ (verifyLaunch cfgCX jwksCX memStoreCX idTokenArrCX stateTokenCX 100000).1
        = .error .clientMismatch :=
  ⟨⟨by decide, by decide, by decide⟩,
   aud_rejection_semantics.1 cfgCX jwksCX memStoreCX idTokenWrongAudCX stateTokenCX
     100000 (by decide) (by decide),
   aud_rejection_semantics.2 cfgCX jwksCX memStoreCX idTokenArrCX stateTokenCX
     100000 launchConfigCX (by decide) (by decide) (by decide) (by decide)
     (by decide)⟩

end LtiTool
